import Mathlib

/-!
Shallow embedding of `src/composable_pipeline/video.py` (PYNQ composable
pipeline video classes) for checking the natural-language specification.

The Python file defines video-pipeline facades (`HDMIVideo`, `VideoFile`,
`Webcam`, `FileDisplayPort`, `WebcamDisplayPort`, `PSVideo`) around a
background frame-copy loop.  We embed:

* Python value equality between enum members and strings (`pyEq`), because
  `HDMIVideo` compares a `VSource` enum member to the string literal
  `"HDMI"`;
* the retry loop of `VideoFile.readframe` (5 attempts, reconfigure on
  failure, then raise);
* the background copy loops `VideoFile._tie`, `FileDisplayPort._tievdma`
  and `FileDisplayPort._tienovdma` as fuelled trace-producing functions —
  the fuel is the number of times the `while self._running` test reads
  `True` before the controlling thread has cleared the flag (the flag is
  set once in `tie` and only ever cleared by `stop`/`pause`, so its
  observed values are monotone: a prefix of `True` reads followed by
  `False`);
* the lifecycle methods of `VideoFile`, `FileDisplayPort` and `PSVideo`
  as state transformers that also emit a list of device-call events.

Exceptions are modelled with `Except`: a raised Python exception is an
`Except.error` carrying the exception message.
-/

namespace CP

/-- The `VSource` enum of the Python source: supported input video sources. -/
inductive VSource
  | OpenCV
  | HDMI
  | MIPI
  deriving DecidableEq, Repr

/-- Python values that appear in the equality tests of `HDMIVideo`:
`VSource` enum members and strings. -/
inductive PyVal
  | vsrc (v : VSource)
  | pystr (s : String)
  deriving DecidableEq, Repr

/-- Python `==` restricted to the values above.  A Python `Enum` member uses
identity-based equality: it compares equal only to itself, never to a
`str`, so cross-type comparisons evaluate to `False`. -/
def pyEq : PyVal → PyVal → Bool
  | .vsrc a, .vsrc b => a = b
  | .pystr a, .pystr b => a = b
  | _, _ => false

/-- A frame is a pixel buffer; we model its contents as a list of bytes
(`Nat` values), which is all the copy loop needs. -/
def Frame := List Nat
deriving DecidableEq, Repr

/-- Observable state of the OpenCV-backed source inside `VideoFile`:
how many `self._videoIn.read()` calls and how many `self._configure()`
calls have happened. -/
structure SrcState where
  reads : Nat
  configs : Nat
  deriving DecidableEq, Repr

/-- Behaviour of the external capture device: the result of the k-th
`read()` call, `none` meaning `ret` was falsy (transient failure). -/
def SrcModel := Nat → Option Frame

/-- A source whose every read fails (reports the transient condition). -/
def alwaysFail : SrcModel := fun _ => none

/-- A source that always succeeds, yielding the frame at the read index. -/
def srcOf (fs : List Frame) : SrcModel := fun k => fs.get? k

/-- The body of `VideoFile.readframe`: `for _ in range(n)` attempts; each
failed `read()` triggers `self._configure()`; a successful read returns the
frame; falling off the loop raises `RuntimeError`.  The final `SrcState` is
returned even on the error path because the `read()`/`_configure()` side
effects have happened by the time the exception is raised. -/
def readframeAux (src : SrcModel) : Nat → SrcState → Except String Frame × SrcState
  | 0, s => (.error "OpenCV cannot rewind", s)
  | n + 1, s =>
    match src s.reads with
    | some f => (.ok f, { s with reads := s.reads + 1 })
    | none => readframeAux src n { reads := s.reads + 1, configs := s.configs + 1 }

/-- `VideoFile.readframe`: the retry loop with the literal bound 5. -/
def readframe (src : SrcModel) (s : SrcState) : Except String Frame × SrcState :=
  readframeAux src 5 s

/-- The devices a buffer event can target: the VDMA write channel, the VDMA
read channel, or the sink (`self._output` / `self._dp`). -/
inductive Chan
  | vdmaWrite
  | vdmaRead
  | sink
  deriving DecidableEq, Repr

/-- Device-call events emitted by the copy loops, in program order.
`newframe c b` is `c.newframe()` returning buffer id `b`;
`copyInto b f` is `buf[:] = f` on buffer id `b`;
`writeframe c b f` is `c.writeframe(buf)` where buffer `b` holds `f`;
`stageReadframe f` is `vdma.readchannel.readframe()` returning `f`;
`lockRelease` is `self._thread.release()`. -/
inductive Ev
  | newframe (c : Chan) (b : Nat)
  | copyInto (b : Nat) (f : Frame)
  | writeframe (c : Chan) (b : Nat) (f : Frame)
  | stageReadframe (f : Frame)
  | lockRelease
  deriving DecidableEq, Repr

/-- Decidable equality for `Except`, used to evaluate concrete runs. -/
instance {ε α : Type} [DecidableEq ε] [DecidableEq α] : DecidableEq (Except ε α) :=
  fun a b =>
    match a, b with
    | .ok x, .ok y =>
      match decEq x y with
      | .isTrue h => .isTrue (h ▸ rfl)
      | .isFalse h => .isFalse (fun hh => h (Except.ok.inj hh))
    | .error x, .error y =>
      match decEq x y with
      | .isTrue h => .isTrue (h ▸ rfl)
      | .isFalse h => .isFalse (fun hh => h (Except.error.inj hh))
    | .ok _, .error _ => .isFalse (fun hh => Except.noConfusion hh)
    | .error _, .ok _ => .isFalse (fun hh => Except.noConfusion hh)

/-- Result of running a copy-loop thread to termination of the thread:
the event trace, whether the thread ended by an uncaught exception
(`Except.error` carries its message), the final source state, and the final
value of `self._running` (only `stop`/`pause` ever clear it; the loop never
writes it). -/
structure TieResult where
  trace : List Ev
  exc : Except String Unit
  src : SrcState
  running : Bool
  deriving DecidableEq, Repr

/-- `VideoFile._tie`, given the buffer id of `self._outframe` (allocated
once in `tie`, before the loop).  `flag` is the number of `while
self._running` tests that read `True`; on reading `False` the loop falls
through to `self._thread.release()`.  Each iteration copies
`self.readframe()` into the one outframe and writes it to the output; an
exception from `readframe` propagates, skipping the release. -/
def tieLoopVF (src : SrcModel) (outframe : Nat) : Nat → SrcState → TieResult
  | 0, s => { trace := [.lockRelease], exc := .ok (), src := s, running := false }
  | flag + 1, s =>
    match readframe src s with
    | (.error e, s1) => { trace := [], exc := .error e, src := s1, running := true }
    | (.ok f, s1) =>
      let rest := tieLoopVF src outframe flag s1
      { rest with trace := .copyInto outframe f :: .writeframe .sink outframe f :: rest.trace }

/-- `FileDisplayPort._tienovdma`: per iteration a fresh `self._dp.newframe()`
(we give iteration `i` the fresh buffer id `base + i`), copy, write. -/
def tieLoopNoVdma (src : SrcModel) (base : Nat) : Nat → SrcState → TieResult
  | 0, s => { trace := [.lockRelease], exc := .ok (), src := s, running := false }
  | flag + 1, s =>
    match readframe src s with
    | (.error e, s1) =>
      { trace := [.newframe .sink base], exc := .error e, src := s1, running := true }
    | (.ok f, s1) =>
      let rest := tieLoopNoVdma src (base + 1) flag s1
      { rest with
        trace := .newframe .sink base :: .copyInto base f ::
          .writeframe .sink base f :: rest.trace }

/-- Behaviour of `vdma.readchannel.readframe()`: the frame the hardware
read channel returns at the i-th iteration (an oracle for the external
double-buffer stage). -/
def StageModel := Nat → Frame

/-- `FileDisplayPort._tievdma`.  Each iteration: fresh write-channel frame,
copy the source frame into it, `writechannel.writeframe`, fresh sink frame,
copy `readchannel.readframe()` into it, `dp.writeframe`.  The loop body is
wrapped in `try/except RuntimeError` that re-raises, so an exception from
`readframe` still propagates out of the loop, skipping the release.
Iteration `i` (counting from the call, via `iter`) uses fresh buffer ids
`2*i` (write channel) and `2*i + 1` (sink). -/
def tieLoopVdma (src : SrcModel) (stage : StageModel) : Nat → Nat → SrcState → TieResult
  | 0, _, s => { trace := [.lockRelease], exc := .ok (), src := s, running := false }
  | flag + 1, iter, s =>
    match readframe src s with
    | (.error _, s1) =>
      { trace := [.newframe .vdmaWrite (2 * iter)],
        exc := .error "Cannot start thread", src := s1, running := true }
    | (.ok f, s1) =>
      let g := stage iter
      let rest := tieLoopVdma src stage flag (iter + 1) s1
      { rest with
        trace := .newframe .vdmaWrite (2 * iter) :: .copyInto (2 * iter) f ::
          .writeframe .vdmaWrite (2 * iter) f :: .newframe .sink (2 * iter + 1) ::
          .stageReadframe g :: .copyInto (2 * iter + 1) g ::
          .writeframe .sink (2 * iter + 1) g :: rest.trace }

/-- `FileDisplayPort.tie` selects the loop body: `self._tievdma` when a
VDMA is present, else `self._tienovdma`. -/
inductive TieVariant
  | vdmaVariant
  | novdmaVariant
  deriving DecidableEq, Repr

/-- The selection made by `FileDisplayPort.tie`. -/
def tieSelect (hasVdma : Bool) : TieVariant :=
  if hasVdma then .vdmaVariant else .novdmaVariant

/-- Number of `self._thread.release()` calls in a trace. -/
def releaseCount (tr : List Ev) : Nat :=
  tr.countP (fun e => e = Ev.lockRelease)

/-- The frames written to the sink, in trace order. -/
def sinkWrites (tr : List Ev) : List Frame :=
  tr.filterMap (fun e =>
    match e with
    | .writeframe .sink _ f => some f
    | _ => none)

/-- `VideoFile.tie` followed by the worker: `tie` checks the stream is
started, allocates `self._outframe` (buffer id 0), acquires the lock, sets
`self._running = True` and spawns `self._tie`; we return the whole worker
run.  `videoIn` is the truthiness of `self._videoIn`. -/
def vfTie (videoIn : Bool) (src : SrcModel) (flag : Nat) (s : SrcState) :
    Except String TieResult :=
  if ¬ videoIn then .error "The stream is not started"
  else .ok <|
    let res := tieLoopVF src 0 flag s
    { res with trace := .newframe .sink 0 :: res.trace }

/-! ## Lifecycle state machines

`FDPState` is the observable state of a `FileDisplayPort` (and, with
`hasVdma := false`, of a plain `VideoFile`): `videoIn` is the truthiness of
`self._videoIn`, `running` of `self._running`, `lockHeld` of
`self._thread.locked()`, `hasVdma` of `self.vdma`.  Lifecycle methods are
state transformers that also emit the list of device calls they perform, in
program order. -/

/-- Observable state of a `VideoFile` / `FileDisplayPort` engine. -/
structure FDPState where
  videoIn : Bool
  running : Bool
  lockHeld : Bool
  hasVdma : Bool
  deriving DecidableEq, Repr

/-- Lifecycle events: the externally visible calls made by
`start`/`stop`/`pause`/`tie` on the devices and on the worker lock. -/
inductive LfEv
  | sourceConfigure
  | vdmaStartWrite
  | vdmaStartRead
  | clearRunning
  | waitLockFree
  | releaseSource
  | stopWriteChannel
  | stopReadChannel
  | tieSpawn
  | dpConfigure
  | dpStop
  deriving DecidableEq, Repr

/-- `FileDisplayPort.start`: `self._configure()`, then if a VDMA is present
start its write and read channels. -/
def fdpStart (st : FDPState) : FDPState × List LfEv :=
  ({ st with videoIn := true },
   .sourceConfigure ::
     (if st.hasVdma then [.vdmaStartWrite, .vdmaStartRead] else []))

/-- `VideoFile.stop`: if the stream is open, clear `self._running`, busy-wait
`while self._thread.locked()` (the `waitLockFree` event returns only once
the worker has released the lock), then `self._videoIn.release()` and set
`self._videoIn = None`.  Otherwise do nothing. -/
def vfStop (st : FDPState) : FDPState × List LfEv :=
  if st.videoIn then
    ({ st with videoIn := false, running := false, lockHeld := false },
     [.clearRunning, .waitLockFree, .releaseSource])
  else (st, [])

/-- `FileDisplayPort.stop`: `super().stop()`, then if a VDMA is present stop
its write and read channels. -/
def fdpStop (st : FDPState) : FDPState × List LfEv :=
  let p := vfStop st
  if st.hasVdma then (p.1, p.2 ++ [.stopWriteChannel, .stopReadChannel])
  else p

/-- `VideoFile.pause`: raise `SystemError` when the stream was never
started; otherwise clear `self._running` when it is set, else do nothing. -/
def vfPause (st : FDPState) : Except String (FDPState × List LfEv) :=
  if ¬ st.videoIn then .error "The stream is not started"
  else if st.running then .ok ({ st with running := false }, [.clearRunning])
  else .ok (st, [])

/-- `FileDisplayPort.tie` as the caller sees it: raise `SystemError` when
the stream was never started, otherwise acquire the lock, set
`self._running = True` and spawn the worker (`tieSpawn`).  The lock acquire
blocks until any previous worker has released the lock. -/
def fdpTie (st : FDPState) : Except String (FDPState × List LfEv) :=
  if ¬ st.videoIn then .error "The stream is not started"
  else .ok ({ st with running := true, lockHeld := true }, [.tieSpawn])

/-- Observable state of a `PSVideo` facade: its `FileDisplayPort` source,
`self._started` and `self._pause` (both `None` initially, modelled as
`false`). -/
structure PSState where
  fdp : FDPState
  started : Bool
  paused : Bool
  deriving DecidableEq, Repr

/-- A freshly constructed `PSVideo` over a VDMA-backed source. -/
def psFresh : PSState :=
  { fdp := { videoIn := false, running := false, lockHeld := false, hasVdma := true },
    started := false, paused := false }

/-- `PSVideo.start`: when not started, `self._dp.configure(...)`,
`self._source.start()`, `self._source.tie(self._dp)` and set
`self._started = True`; then — in the same call — when `self._pause` is
set, `self._source.tie(self._dp)` again and clear `self._pause`. -/
def psStart (st : PSState) : Except String (PSState × List LfEv) :=
  match (if ¬ st.started then
          let p := fdpStart st.fdp
          match fdpTie p.1 with
          | .error e => .error e
          | .ok (f2, e2) =>
            .ok ({ st with fdp := f2, started := true }, .dpConfigure :: (p.2 ++ e2))
        else .ok (st, []) : Except String (PSState × List LfEv)) with
  | .error e => .error e
  | .ok (st1, evs1) =>
    if st1.paused then
      match fdpTie st1.fdp with
      | .error e => .error e
      | .ok (f3, e3) => .ok ({ st1 with fdp := f3, paused := false }, evs1 ++ e3)
    else .ok (st1, evs1)

/-- `PSVideo.stop`: when started, `self._source.stop()`, `self._dp.stop()`
and clear `self._started`; `self._pause` is left untouched. -/
def psStop (st : PSState) : PSState × List LfEv :=
  if st.started then
    let p := fdpStop st.fdp
    ({ st with fdp := p.1, started := false }, p.2 ++ [.dpStop])
  else (st, [])

/-- `PSVideo.pause`: when started and not yet paused, `self._source.pause()`
and set `self._pause = True`; otherwise do nothing (no exception). -/
def psPause (st : PSState) : Except String (PSState × List LfEv) :=
  if st.started ∧ ¬ st.paused then
    match vfPause st.fdp with
    | .error e => .error e
    | .ok (f, e) => .ok ({ st with fdp := f, paused := true }, e)
  else .ok (st, [])

/-- Number of `tie` spawns in a lifecycle event list. -/
def tieCount (evs : List LfEv) : Nat :=
  evs.countP (fun e => e = LfEv.tieSpawn)

/-- Number of `Source.configure` calls in a lifecycle event list. -/
def srcConfigCount (evs : List LfEv) : Nat :=
  evs.countP (fun e => e = LfEv.sourceConfigure)

/-- Number of `Sink.configure` (`self._dp.configure`) calls. -/
def dpConfigCount (evs : List LfEv) : Nat :=
  evs.countP (fun e => e = LfEv.dpConfigure)

/-! ## HDMIVideo -/

/-- The video mode triple `VideoMode(width, height, bpp)`. -/
structure VideoModeT where
  width : Nat
  height : Nat
  bpp : Nat
  deriving DecidableEq, Repr

/-- The outcome of `HDMIVideo.__init__` that later calls depend on:
the device name, the stored `self._source`, and whether the constructor
bound `self._source_in` to `ol.mipi` (the else branch of the
`self._source == 'HDMI'` test on a Pynq-ZU device). -/
structure HDMIConfig where
  deviceName : String
  source : VSource
  usesMipiPath : Bool
  deriving DecidableEq, Repr

/-- `HDMIVideo.__init__`: raise `ValueError` when the source is not in
`[VSource.HDMI, VSource.MIPI]`; otherwise raise `ValueError` when the
device is not a Pynq-ZU **and** `source != 'HDMI'` — the latter comparing
the enum member against the string.  On a Pynq-ZU device, bind
`self._source_in` to `ol.mipi` exactly when `self._source == 'HDMI'` is
false. -/
def hdmiInit (deviceName : String) (source : VSource) : Except String HDMIConfig :=
  if ¬ (source = .HDMI ∨ source = .MIPI) then
    .error "is not supported"
  else if deviceName ≠ "Pynq-ZU" ∧ ¬ (pyEq (.vsrc source) (.pystr "HDMI")) then
    .error "only supports HDMI as input source"
  else
    .ok { deviceName := deviceName, source := source,
          usesMipiPath :=
            deviceName = "Pynq-ZU" ∧ ¬ (pyEq (.vsrc source) (.pystr "HDMI")) }

/-- Device calls made by `HDMIVideo.start` / `HDMIVideo.stop`. -/
inductive HdmiEv
  | configureDefault
  | configureFixed (m : VideoModeT)
  | outConfigure
  | sourceInStart
  | hdmiOutStart
  | tieInOut
  | hdmiOutClose
  | sourceInClose
  deriving DecidableEq, Repr

/-- Observable state of an `HDMIVideo` object after construction. -/
structure HDMIState where
  cfg : HDMIConfig
  started : Bool
  deriving DecidableEq, Repr

/-- `HDMIVideo.start`: when not started, configure the input — with no
arguments when `self._source == 'HDMI'`, else with the fixed
`VideoMode(1280, 720, 24)` — configure the output from the input mode,
start both, tie them, and set `self._started = True`. -/
def hdmiStart (st : HDMIState) : HDMIState × List HdmiEv :=
  if ¬ st.started then
    ({ st with started := true },
     (if pyEq (.vsrc st.cfg.source) (.pystr "HDMI") then
        [.configureDefault]
      else
        [.configureFixed { width := 1280, height := 720, bpp := 24 }]) ++
       [.outConfigure, .sourceInStart, .hdmiOutStart, .tieInOut])
  else (st, [])

/-- `HDMIVideo.stop`: when started, close the output then the input and
clear `self._started`. -/
def hdmiStop (st : HDMIState) : HDMIState × List HdmiEv :=
  if st.started then
    ({ st with started := false }, [.hdmiOutClose, .sourceInClose])
  else (st, [])

/-! ## Trace analysis helpers -/

/-- The frames written to the VDMA write channel, in trace order. -/
def stageWrites (tr : List Ev) : List Frame :=
  tr.filterMap (fun e =>
    match e with
    | .writeframe .vdmaWrite _ f => some f
    | _ => none)

/-- The buffer ids used in `writeframe` calls on channel `c`. -/
def wfBufs (c : Chan) (tr : List Ev) : List Nat :=
  tr.filterMap (fun e =>
    match e with
    | .writeframe c2 b _ => if c2 = c then some b else none
    | _ => none)

/-- Scans a trace and reports whether some buffer is written into
(`copyInto`) again after it has already been handed to a `writeframe`
call — i.e. whether the sender touches a buffer after transferring it. -/
def touchedAfterWriteAux : List Ev → List Nat → Bool
  | [], _ => false
  | .copyInto b _ :: rest, written =>
    written.contains b || touchedAfterWriteAux rest written
  | .writeframe _ b _ :: rest, written => touchedAfterWriteAux rest (b :: written)
  | _ :: rest, written => touchedAfterWriteAux rest written

/-- Whether a trace writes into some buffer after a `writeframe` on it. -/
def touchedAfterWrite (tr : List Ev) : Bool :=
  touchedAfterWriteAux tr []

/-- Scans a trace and checks that every frame written to the sink was
previously returned by a `vdma.readchannel.readframe()` call
(`stageReadframe`) earlier in the trace; the accumulator is the list of
frames the stage has produced so far. -/
def sinkFromStageAux : List Ev → List Frame → Bool
  | [], _ => true
  | .stageReadframe f :: rest, seen => sinkFromStageAux rest (f :: seen)
  | .writeframe .sink _ f :: rest, seen =>
    seen.contains f && sinkFromStageAux rest seen
  | _ :: rest, seen => sinkFromStageAux rest seen

/-- Whether every sink write forwards a frame read back from the stage. -/
def sinkFromStage (tr : List Ev) : Bool :=
  sinkFromStageAux tr []

/-! ## Basic lemmas about `readframe` -/

/-- On a source with no failures, `readframe` succeeds on the first attempt
and performs no reconfiguration. -/
theorem readframe_srcOf (pre rest : List Frame) (f : Frame) (c : Nat) :
    readframe (srcOf (pre ++ f :: rest)) { reads := pre.length, configs := c } =
      (.ok f, { reads := pre.length + 1, configs := c }) := by
  simp [readframe, readframeAux, srcOf, List.getElem?_append_right,
    List.getElem_append_right, Nat.le_refl, Nat.sub_self]

/-- On an always-failing source, `readframe` fails after exactly 5 reads
and 5 reconfigurations. -/
theorem readframe_alwaysFail (s : SrcState) :
    readframe alwaysFail s =
      (.error "OpenCV cannot rewind",
       { reads := s.reads + 5, configs := s.configs + 5 }) := by
  simp [readframe, readframeAux, alwaysFail]

/-! ## Runs of the copy loops on failure-free sources -/

/-- The trace `VideoFile._tie` produces per frame, into the single
`self._outframe` buffer. -/
def vfBody (ob : Nat) (fs : List Frame) : List Ev :=
  (fs.flatMap fun f => [.copyInto ob f, .writeframe .sink ob f]) ++ [.lockRelease]

/-- Characterization of a failure-free `VideoFile._tie` run whose flag is
cleared after `fs.length` iterations. -/
theorem tieLoopVF_srcOf (fs : List Frame) (pre : List Frame) (ob c : Nat) :
    tieLoopVF (srcOf (pre ++ fs)) ob fs.length { reads := pre.length, configs := c } =
      { trace := vfBody ob fs, exc := .ok (),
        src := { reads := pre.length + fs.length, configs := c },
        running := false } := by
  induction fs generalizing pre with
  | nil => simp [tieLoopVF, vfBody]
  | cons f rest ih =>
    have h1 : pre ++ f :: rest = (pre ++ [f]) ++ rest := by simp
    have h2 := readframe_srcOf pre rest f c
    have h3 := ih (pre ++ [f])
    simp only [List.length_append, List.length_singleton] at h3
    rw [List.length_cons, tieLoopVF, h2, h1]
    dsimp only
    rw [h3]
    simp only [vfBody, List.flatMap_cons, List.append_assoc, List.cons_append,
      List.nil_append, TieResult.mk.injEq, and_true, true_and]
    congr 1
    omega

/-- `sinkWrites` of a `VideoFile._tie` body: the frames, in order. -/
theorem sinkWrites_vfBody (ob : Nat) (fs : List Frame) :
    sinkWrites (vfBody ob fs) = fs := by
  induction fs with
  | nil => rfl
  | cons f rest ih => simpa [vfBody, sinkWrites] using ih

/-- `releaseCount` of a `VideoFile._tie` body: exactly one. -/
theorem releaseCount_vfBody (ob : Nat) (fs : List Frame) :
    releaseCount (vfBody ob fs) = 1 := by
  induction fs with
  | nil => rfl
  | cons f rest ih => simpa [vfBody, releaseCount] using ih

/-- A failure-free `FileDisplayPort._tienovdma` run exits normally and
releases the lock exactly once. -/
theorem tieLoopNoVdma_noFail (fs : List Frame) (pre : List Frame) (base c : Nat) :
    (tieLoopNoVdma (srcOf (pre ++ fs)) base fs.length
        { reads := pre.length, configs := c }).exc = .ok () ∧
    releaseCount (tieLoopNoVdma (srcOf (pre ++ fs)) base fs.length
        { reads := pre.length, configs := c }).trace = 1 := by
  induction fs generalizing pre base with
  | nil => simp [tieLoopNoVdma, releaseCount]
  | cons f rest ih =>
    have h1 : pre ++ f :: rest = (pre ++ [f]) ++ rest := by simp
    have h2 := readframe_srcOf pre rest f c
    rw [List.length_cons, tieLoopNoVdma, h2]
    dsimp only
    rw [h1]
    have h3 := ih (pre ++ [f]) (base + 1)
    simp only [List.length_append, List.length_singleton] at h3
    simpa [releaseCount] using h3

/-- The trace `FileDisplayPort._tievdma` produces on a failure-free source,
starting at iteration index `i`: per frame a fresh write-channel buffer
(`2*i`), the source frame copied and written into the write channel, a
fresh sink buffer (`2*i + 1`), and the stage output copied and written to
the sink. -/
def vdmaBody (stage : StageModel) : Nat → List Frame → List Ev
  | _, [] => [.lockRelease]
  | i, f :: rest =>
    .newframe .vdmaWrite (2 * i) :: .copyInto (2 * i) f ::
    .writeframe .vdmaWrite (2 * i) f :: .newframe .sink (2 * i + 1) ::
    .stageReadframe (stage i) :: .copyInto (2 * i + 1) (stage i) ::
    .writeframe .sink (2 * i + 1) (stage i) :: vdmaBody stage (i + 1) rest

/-- Characterization of a failure-free `FileDisplayPort._tievdma` run whose
flag is cleared after `fs.length` iterations. -/
theorem tieLoopVdma_srcOf (fs : List Frame) (pre : List Frame) (stage : StageModel)
    (i c : Nat) :
    tieLoopVdma (srcOf (pre ++ fs)) stage fs.length i
        { reads := pre.length, configs := c } =
      { trace := vdmaBody stage i fs, exc := .ok (),
        src := { reads := pre.length + fs.length, configs := c },
        running := false } := by
  induction fs generalizing pre i with
  | nil => simp [tieLoopVdma, vdmaBody]
  | cons f rest ih =>
    have h1 : pre ++ f :: rest = (pre ++ [f]) ++ rest := by simp
    have h2 := readframe_srcOf pre rest f c
    have h3 := ih (pre ++ [f]) (i + 1)
    simp only [List.length_append, List.length_singleton] at h3
    rw [List.length_cons, tieLoopVdma, h2]
    dsimp only
    rw [h1, h3]
    simp only [vdmaBody, TieResult.mk.injEq, SrcState.mk.injEq, and_true, true_and]
    omega

/-- `releaseCount` of a `_tievdma` body: exactly one. -/
theorem releaseCount_vdmaBody (stage : StageModel) (i : Nat) (fs : List Frame) :
    releaseCount (vdmaBody stage i fs) = 1 := by
  induction fs generalizing i with
  | nil => rfl
  | cons f rest ih => simpa [vdmaBody, releaseCount] using ih (i + 1)

/-- `stageWrites` of a `_tievdma` body: exactly the source frames, in order. -/
theorem stageWrites_vdmaBody (stage : StageModel) (i : Nat) (fs : List Frame) :
    stageWrites (vdmaBody stage i fs) = fs := by
  induction fs generalizing i with
  | nil => rfl
  | cons f rest ih => simpa [vdmaBody, stageWrites] using ih (i + 1)

/-- `sinkWrites` of a `_tievdma` body: exactly the frames the stage read
channel produced, in order. -/
theorem sinkWrites_vdmaBody (stage : StageModel) (i : Nat) (fs : List Frame) :
    sinkWrites (vdmaBody stage i fs) = (List.range' i fs.length).map stage := by
  induction fs generalizing i with
  | nil => rfl
  | cons f rest ih => simpa [vdmaBody, sinkWrites, List.range'_succ] using ih (i + 1)

/-- The write-channel `writeframe` buffer ids of a `_tievdma` body. -/
theorem wfBufs_vdmaWrite_vdmaBody (stage : StageModel) (i : Nat) (fs : List Frame) :
    wfBufs .vdmaWrite (vdmaBody stage i fs) =
      (List.range' i fs.length).map fun k => 2 * k := by
  induction fs generalizing i with
  | nil => rfl
  | cons f rest ih => simpa [vdmaBody, wfBufs, List.range'_succ] using ih (i + 1)

/-- The sink `writeframe` buffer ids of a `_tievdma` body. -/
theorem wfBufs_sink_vdmaBody (stage : StageModel) (i : Nat) (fs : List Frame) :
    wfBufs .sink (vdmaBody stage i fs) =
      (List.range' i fs.length).map fun k => 2 * k + 1 := by
  induction fs generalizing i with
  | nil => rfl
  | cons f rest ih => simpa [vdmaBody, wfBufs, List.range'_succ] using ih (i + 1)

/-- Whether two buffer-id lists share no element. -/
def bufsDisjoint (xs ys : List Nat) : Bool :=
  xs.all fun x => ys.all fun y => x ≠ y

/-- In a `_tievdma` body every sink write forwards a frame previously read
back from the stage. -/
theorem sinkFromStage_vdmaBody (stage : StageModel) (i : Nat) (fs : List Frame)
    (seen : List Frame) :
    sinkFromStageAux (vdmaBody stage i fs) seen = true := by
  induction fs generalizing i seen with
  | nil => rfl
  | cons f rest ih =>
    simpa [vdmaBody, sinkFromStageAux] using ih (i + 1) (stage i :: seen)

/-- Even buffer ids and odd buffer ids over the same index range never
coincide. -/
theorem bufsDisjoint_even_odd (i n m : Nat) :
    bufsDisjoint ((List.range' i n).map fun k => 2 * k)
      ((List.range' m n).map fun k => 2 * k + 1) = true := by
  rw [bufsDisjoint, List.all_eq_true]
  intro x hx
  simp only [List.mem_map] at hx
  obtain ⟨k, _, rfl⟩ := hx
  rw [List.all_eq_true]
  intro y hy
  simp only [List.mem_map] at hy
  obtain ⟨k2, _, rfl⟩ := hy
  simp only [ne_eq, decide_eq_true_eq]
  omega

/-! ## Runs of the copy loops on an always-failing source -/

/-- On an always-failing source, `VideoFile._tie` dies on its first
iteration with the `RuntimeError` from `readframe`, after 5 reads and 5
reconfigurations; no `lockRelease` is emitted and `self._running` is left
`True`. -/
theorem tieLoopVF_alwaysFail (ob fl : Nat) (s : SrcState) :
    tieLoopVF alwaysFail ob (fl + 1) s =
      { trace := [], exc := .error "OpenCV cannot rewind",
        src := { reads := s.reads + 5, configs := s.configs + 5 },
        running := true } := by
  rw [tieLoopVF, readframe_alwaysFail]

/-- On an always-failing source, `FileDisplayPort._tienovdma` dies on its
first iteration with the `RuntimeError` from `readframe`; no `lockRelease`
is emitted and `self._running` is left `True`. -/
theorem tieLoopNoVdma_alwaysFail (base fl : Nat) (s : SrcState) :
    tieLoopNoVdma alwaysFail base (fl + 1) s =
      { trace := [.newframe .sink base], exc := .error "OpenCV cannot rewind",
        src := { reads := s.reads + 5, configs := s.configs + 5 },
        running := true } := by
  rw [tieLoopNoVdma, readframe_alwaysFail]

/-- On an always-failing source, `FileDisplayPort._tievdma` dies on its
first iteration: the `except RuntimeError` handler re-raises; no
`lockRelease` is emitted and `self._running` is left `True`. -/
theorem tieLoopVdma_alwaysFail (stage : StageModel) (fl i : Nat) (s : SrcState) :
    tieLoopVdma alwaysFail stage (fl + 1) i s =
      { trace := [.newframe .vdmaWrite (2 * i)], exc := .error "Cannot start thread",
        src := { reads := s.reads + 5, configs := s.configs + 5 },
        running := true } := by
  rw [tieLoopVdma, readframe_alwaysFail]

/-! ## Claims -/

/-- C1: the claim says every exit path of the background copy loops —
including the fatal path where `readframe` exhausts its retry budget —
releases the `threading.Lock` exactly once.  The code violates this: none
of `_tie`, `_tievdma`, `_tienovdma` has a `try/finally`, so on the fatal
path the exception propagates out of the loop and `self._thread.release()`
is skipped (release count 0), leaving `stop()`/`pause()` unable to observe
termination; the release happens exactly once only on the flag-cleared
exit. -/
theorem C1_release_skipped_on_fatal_path (ob base fl i c : Nat) (s : SrcState)
    (stage : StageModel) (fs pre : List Frame) :
    releaseCount (tieLoopVF alwaysFail ob (fl + 1) s).trace = 0 ∧
    (tieLoopVF alwaysFail ob (fl + 1) s).exc = .error "OpenCV cannot rewind" ∧
    releaseCount (tieLoopNoVdma alwaysFail base (fl + 1) s).trace = 0 ∧
    (tieLoopNoVdma alwaysFail base (fl + 1) s).exc = .error "OpenCV cannot rewind" ∧
    releaseCount (tieLoopVdma alwaysFail stage (fl + 1) i s).trace = 0 ∧
    (tieLoopVdma alwaysFail stage (fl + 1) i s).exc = .error "Cannot start thread" ∧
    releaseCount (tieLoopVF (srcOf (pre ++ fs)) ob fs.length
        { reads := pre.length, configs := c }).trace = 1 ∧
    releaseCount (tieLoopNoVdma (srcOf (pre ++ fs)) base fs.length
        { reads := pre.length, configs := c }).trace = 1 ∧
    releaseCount (tieLoopVdma (srcOf (pre ++ fs)) stage fs.length i
        { reads := pre.length, configs := c }).trace = 1 := by
  refine ⟨?_, ?_, ?_, ?_, ?_, ?_, ?_, ?_, ?_⟩
  · rw [tieLoopVF_alwaysFail]; rfl
  · rw [tieLoopVF_alwaysFail]
  · rw [tieLoopNoVdma_alwaysFail]; rfl
  · rw [tieLoopNoVdma_alwaysFail]
  · rw [tieLoopVdma_alwaysFail]; rfl
  · rw [tieLoopVdma_alwaysFail]
  · rw [tieLoopVF_srcOf]; exact releaseCount_vfBody ob fs
  · exact (tieLoopNoVdma_noFail fs pre base c).2
  · rw [tieLoopVdma_srcOf]; exact releaseCount_vdmaBody stage i fs

/-- C2 counterexample: on a source whose every read fails, the copy loop
exits on the fatal path (uncaught `RuntimeError`), yet `self._running` is
still `True` — the running flag is not forced false as the claim states. -/
theorem C2_counterexample :
    (tieLoopVF alwaysFail 0 1 { reads := 0, configs := 0 }).exc =
        Except.error "OpenCV cannot rewind" ∧
    (tieLoopVF alwaysFail 0 1 { reads := 0, configs := 0 }).running = true := by
  refine ⟨rfl, rfl⟩

/-- C2 (amended): for a source whose every read fails, `readframe`
reconfigures the source exactly 5 times (performing exactly 5 reads) and
then raises the fatal `RuntimeError`; the copy loop halts because the
exception propagates out of it, but the running flag is left unchanged
(still `True`), not forced false. -/
theorem C2_retry_bound (s : SrcState) (ob fl : Nat) :
    readframe alwaysFail s =
      (.error "OpenCV cannot rewind",
       { reads := s.reads + 5, configs := s.configs + 5 }) ∧
    tieLoopVF alwaysFail ob (fl + 1) s =
      { trace := [], exc := .error "OpenCV cannot rewind",
        src := { reads := s.reads + 5, configs := s.configs + 5 },
        running := true } :=
  ⟨readframe_alwaysFail s, tieLoopVF_alwaysFail ob fl s⟩

/-- C3: on a started-and-tied pipeline, `stop()` first clears the running
flag, then busy-waits until the worker has released the lock
(`waitLockFree` returns only on confirmed exit), and only then releases
the source and — when a VDMA is present — stops the write and read
channels; the emitted call order proves no release precedes the
confirmation. -/
theorem C3_stop_clears_waits_then_releases (st : FDPState) (h : st.videoIn = true) :
    fdpStop st =
      ({ st with videoIn := false, running := false, lockHeld := false },
       [.clearRunning, .waitLockFree, .releaseSource] ++
         (if st.hasVdma then [.stopWriteChannel, .stopReadChannel] else [])) := by
  cases hv : st.hasVdma <;> simp [fdpStop, vfStop, h, hv]

/-- C3 witness: the theorem applied to a concrete started VDMA pipeline. -/
theorem C3_stop_clears_waits_then_releases_witness :
    fdpStop { videoIn := true, running := true, lockHeld := true, hasVdma := true } =
      ({ videoIn := false, running := false, lockHeld := false, hasVdma := true },
       [.clearRunning, .waitLockFree, .releaseSource,
        .stopWriteChannel, .stopReadChannel]) := by
  simpa using C3_stop_clears_waits_then_releases
    { videoIn := true, running := true, lockHeld := true, hasVdma := true } rfl

/-- C4 counterexample: running `VideoFile.tie`/`_tie` on the two distinct
frames `[1]` and `[2]` delivers them in order, but the single output
buffer allocated once in `tie` is written into again (`copyInto`) after it
was already handed to `writeframe` — the sender does touch the buffer
after ownership transfer, falsifying the claim. -/
theorem C4_counterexample :
    (vfTie true (srcOf [[1], [2]]) 2 { reads := 0, configs := 0 }).map
        (fun r => (sinkWrites r.trace, touchedAfterWrite r.trace)) =
      .ok ([[1], [2]], true) := by
  decide

/-- C4 (amended): for a failure-free source yielding frames F1..Fn, the
sink receives exactly F1..Fn in order, byte-for-byte; but `VideoFile._tie`
copies every frame into the one buffer allocated in `tie`, so that buffer
is written again after each `writeframe` (there is no per-frame ownership
transfer). -/
theorem C4_in_order_delivery (fs : List Frame) (c : Nat) :
    (vfTie true (srcOf fs) fs.length { reads := 0, configs := c }).map
        (fun r => sinkWrites r.trace) = .ok fs := by
  have h := tieLoopVF_srcOf fs [] 0 c
  simp only [List.nil_append, List.length_nil] at h
  unfold vfTie
  simp only [h, Except.map]
  simpa [sinkWrites] using sinkWrites_vfBody 0 fs

/-- The call sequence `start(); pause(); stop(); start()` on a fresh
`PSVideo`, returning, for the final `start()` call, the number of
`tie` invocations and of `self._dp.configure` calls it performs. -/
def c5run : Except String (Nat × Nat) :=
  match psStart psFresh with
  | .error e => .error e
  | .ok (s1, _) =>
    match psPause s1 with
    | .error e => .error e
    | .ok (s2, _) =>
      let p3 := psStop s2
      match psStart p3.1 with
      | .error e => .error e
      | .ok (_, evs4) => .ok (tieCount evs4, dpConfigCount evs4)

/-- C5: after `pause()` then `stop()` then `start()` on `PSVideo`, the last
`start()` performs one full reconfigure but invokes `tie` TWICE — once in
the not-started branch and once more in the stale-`self._pause` branch,
because `stop()` never clears `self._pause`.  The second `tie` call tries
to acquire the lock the first worker already holds, so `start()` blocks
while a worker runs — the claim that `tie` is invoked exactly once (one
worker spawned) is violated by the code. -/
theorem C5_double_tie_on_restart : c5run = .ok (2, 1) := by decide

/-- C6: `HDMIVideo.start()` while already started, `VideoFile.pause()`
while already paused, `VideoFile.stop()` and `PSVideo.stop()` on a
never-started/already-stopped engine, and `PSVideo.pause()` while already
paused are all no-ops: the state is unchanged and no device call is
emitted. -/
theorem C6_idempotent_noops (hs : HDMIState) (st stp : FDPState) (ps psp : PSState)
    (hh : hs.started = true) (hv : st.videoIn = true) (hr : st.running = false)
    (hsp : stp.videoIn = false) (hp : ps.started = false) (hq : psp.paused = true) :
    hdmiStart hs = (hs, []) ∧ vfPause st = .ok (st, []) ∧
    vfStop stp = (stp, []) ∧ psStop ps = (ps, []) ∧ psPause psp = .ok (psp, []) := by
  refine ⟨?_, ?_, ?_, ?_, ?_⟩
  · simp [hdmiStart, hh]
  · simp [vfPause, hv, hr]
  · simp [vfStop, hsp]
  · simp [psStop, hp]
  · simp [psPause, hq]

/-- C6 witness: the theorem applied to concrete states. -/
theorem C6_idempotent_noops_witness :
    hdmiStart { cfg := { deviceName := "Pynq-ZU", source := .HDMI,
                         usesMipiPath := true }, started := true } =
      ({ cfg := { deviceName := "Pynq-ZU", source := .HDMI,
                  usesMipiPath := true }, started := true }, []) ∧
    vfPause { videoIn := true, running := false, lockHeld := false, hasVdma := false } =
      .ok ({ videoIn := true, running := false, lockHeld := false, hasVdma := false }, []) ∧
    vfStop { videoIn := false, running := false, lockHeld := false, hasVdma := false } =
      ({ videoIn := false, running := false, lockHeld := false, hasVdma := false }, []) ∧
    psStop psFresh = (psFresh, []) ∧
    psPause { fdp := { videoIn := true, running := false, lockHeld := false,
                       hasVdma := true }, started := true, paused := true } =
      .ok ({ fdp := { videoIn := true, running := false, lockHeld := false,
                      hasVdma := true }, started := true, paused := true }, []) :=
  C6_idempotent_noops _ _ _ _ _ rfl rfl rfl rfl rfl rfl

/-- The call sequence `start(); pause(); start()` on a fresh `PSVideo`,
returning the total number of `Source.configure`, `Sink.configure`
(`self._dp.configure`) and `tie` calls across the whole cycle. -/
def c7run : Except String (Nat × Nat × Nat) :=
  match psStart psFresh with
  | .error e => .error e
  | .ok (s1, evs1) =>
    match psPause s1 with
    | .error e => .error e
    | .ok (s2, evs2) =>
      match psStart s2 with
      | .error e => .error e
      | .ok (_, evs3) =>
        let all := evs1 ++ evs2 ++ evs3
        .ok (srcConfigCount all, dpConfigCount all, tieCount all)

/-- C7: across the cycle `start(); pause(); start()` on `PSVideo`, the
source is configured exactly once and the DisplayPort sink exactly once;
only the copy loop is re-spawned (`tie` runs twice, once per spawn). -/
theorem C7_pause_resume_no_reconfigure : c7run = .ok (1, 1, 2) := by decide

/-- C8 counterexample: `PSVideo.pause()` on a never-started engine returns
normally with no state change and no device call — it does not raise — so
the claim that every facade exposing `pause()` reports a synchronous
error on a never-started engine is false. -/
theorem C8_counterexample : psPause psFresh = .ok (psFresh, []) := by decide

/-- C8 (amended): `VideoFile.pause()` (and its subclasses `Webcam`,
`FileDisplayPort`, `WebcamDisplayPort`) raises `SystemError` when the
stream was never started, but `PSVideo.pause()` on a never-started engine
is a silent no-op. -/
theorem C8_pause_not_started (st : FDPState) (ps : PSState)
    (hv : st.videoIn = false) (hp : ps.started = false) :
    vfPause st = .error "The stream is not started" ∧ psPause ps = .ok (ps, []) := by
  constructor
  · simp [vfPause, hv]
  · simp [psPause, hp]

/-- C8 witness: the amended theorem applied to a fresh `FileDisplayPort`
state and a fresh `PSVideo`. -/
theorem C8_pause_not_started_witness :
    vfPause { videoIn := false, running := false, lockHeld := false, hasVdma := true } =
      .error "The stream is not started" ∧
    psPause psFresh = .ok (psFresh, []) :=
  C8_pause_not_started _ _ rfl rfl

/-- C9: in every failure-free `_tievdma` run, each iteration writes the
frame read from the source into the VDMA **write** channel, forwards to
the sink only frames returned by the VDMA **read** channel (each obtained
earlier in the trace), and the buffers handed to the write channel are
disjoint from the buffers handed to the sink; `FileDisplayPort.tie`
selects the VDMA variant exactly when a VDMA is present. -/
theorem C9_vdma_channel_discipline (fs : List Frame) (stage : StageModel) (c : Nat) :
    stageWrites (tieLoopVdma (srcOf fs) stage fs.length 0
        { reads := 0, configs := c }).trace = fs ∧
    sinkWrites (tieLoopVdma (srcOf fs) stage fs.length 0
        { reads := 0, configs := c }).trace = (List.range' 0 fs.length).map stage ∧
    sinkFromStage (tieLoopVdma (srcOf fs) stage fs.length 0
        { reads := 0, configs := c }).trace = true ∧
    bufsDisjoint
      (wfBufs .vdmaWrite (tieLoopVdma (srcOf fs) stage fs.length 0
          { reads := 0, configs := c }).trace)
      (wfBufs .sink (tieLoopVdma (srcOf fs) stage fs.length 0
          { reads := 0, configs := c }).trace) = true ∧
    tieSelect true = .vdmaVariant ∧ tieSelect false = .novdmaVariant := by
  have h := tieLoopVdma_srcOf fs [] stage 0 c
  simp only [List.nil_append, List.length_nil] at h
  rw [h]
  refine ⟨stageWrites_vdmaBody stage 0 fs, sinkWrites_vdmaBody stage 0 fs,
    sinkFromStage_vdmaBody stage 0 fs [], ?_, rfl, rfl⟩
  rw [wfBufs_vdmaWrite_vdmaBody, wfBufs_sink_vdmaBody]
  exact bufsDisjoint_even_odd 0 fs.length 0

/-- C10: the stored `VSource` enum member never compares equal to the
string `"HDMI"`; hence on any device other than Pynq-ZU the constructor
raises `ValueError` for every source, `VSource.HDMI` included, and
`HDMIVideo.start()` on a Pynq-ZU-constructed object always configures the
input through the fixed `VideoMode(1280, 720, 24)` branch, even when the
source is `VSource.HDMI`. -/
theorem C10_enum_never_equals_string (v : VSource) (dev : String) (st : HDMIState)
    (hdev : dev ≠ "Pynq-ZU") (hzu : st.cfg.deviceName = "Pynq-ZU")
    (hst : st.started = false) :
    pyEq (.vsrc v) (.pystr "HDMI") = false ∧
    (∃ msg, hdmiInit dev v = .error msg) ∧
    (hdmiStart st).2 =
      [.configureFixed { width := 1280, height := 720, bpp := 24 },
       .outConfigure, .sourceInStart, .hdmiOutStart, .tieInOut] := by
  refine ⟨rfl, ?_, ?_⟩
  · cases v with
    | OpenCV => exact ⟨"is not supported", by simp [hdmiInit]⟩
    | HDMI => exact ⟨"only supports HDMI as input source", by simp [hdmiInit, pyEq, hdev]⟩
    | MIPI => exact ⟨"only supports HDMI as input source", by simp [hdmiInit, pyEq, hdev]⟩
  · simp [hdmiStart, hst, pyEq]

/-- C10 witness: the theorem applied to `VSource.HDMI`, a non-Pynq-ZU
device name, and a not-yet-started Pynq-ZU `HDMIVideo` with HDMI source. -/
theorem C10_enum_never_equals_string_witness :
    pyEq (.vsrc .HDMI) (.pystr "HDMI") = false ∧
    (∃ msg, hdmiInit "Pynq-Z2" .HDMI = .error msg) ∧
    (hdmiStart { cfg := { deviceName := "Pynq-ZU", source := .HDMI,
                          usesMipiPath := true }, started := false }).2 =
      [.configureFixed { width := 1280, height := 720, bpp := 24 },
       .outConfigure, .sourceInStart, .hdmiOutStart, .tieInOut] :=
  C10_enum_never_equals_string .HDMI "Pynq-Z2" _ (by decide) rfl rfl

end CP
